import Mathlib

/-!
# Verification of the reactivity + virtual-tree diffing core

A shallow embedding, in Lean 4, of the reactive-UI runtime's core:
the reactive property setter (`observer/index.js`), the watcher
(`observer/watcher.js`), the update scheduler (`observer/scheduler.js`),
the intercepted array mutators (`observer/array.js`), `observe`, the
virtual-node patch engine (`vdom/patch.js`) and `_createElement`
(`vdom/create-element.js`), together with theorems settling the frozen
claims about them.

JavaScript values are modeled by the inductive `JSVal`; machine details
that the claims do not touch (prototype chains, property descriptors,
the real DOM) are modeled by explicit state records and operation logs.
-/

namespace VueCore

/-! ## JavaScript value model

Only the distinctions the observed code branches on are modeled:
`undefined`, `null`, booleans, (integer) numbers, the `NaN` value,
strings, and object references identified by an id (`===` on objects is
reference equality). -/

inductive JSVal where
| undef
| nul
| bool (b : Bool)
| num (n : Int)
| nan
| str (s : String)
| obj (id : Nat)
deriving DecidableEq, Repr

/-- JavaScript strict equality `===`.  `NaN === x` is `false` for every
`x`, including `NaN` itself; all other values compare structurally
(objects by reference id). -/
def jsStrictEq : JSVal → JSVal → Bool
| .nan, _ => false
| _, .nan => false
| a, b => a == b

/-- `isObject` from `util/index`: `typeof obj === 'object' && obj !== null`.
In the model only `obj` references (plain objects and arrays) satisfy it. -/
def isObject : JSVal → Bool
| .obj _ => true
| _ => false

@[simp] theorem jsStrictEq_nan_left (v : JSVal) : jsStrictEq .nan v = false := by
cases v <;> rfl

@[simp] theorem jsStrictEq_nan_right (v : JSVal) : jsStrictEq v .nan = false := by
cases v <;> rfl

/-! ## Reactive property setter (`defineReactive`, observer/index.js)

`defineReactive(obj, key, val, customSetter, shallow)` installs a
`reactiveSetter` closure over the backing value `val`.  We embed the
path taken for the plain data fields it is invoked on (no pre-existing
`get`/`set` accessor pair in the property descriptor, so
`const value = getter ? getter.call(obj) : val` reads the closed-over
`val`, and the `if (getter && !setter) return` branch is dead).
`customSetter` is a development-mode warning hook with no effect on the
outcome and is not modeled. -/

structure SetterOutcome where
val : JSVal
observeCalled : Bool
notified : Bool
deriving DecidableEq, Repr

/-- The `set: function reactiveSetter (newVal)` body:
suppress the write when `newVal === value || (newVal !== newVal && value !== value)`;
otherwise store the new value, run `observe(newVal)` unless `shallow`,
and call `dep.notify()`. -/
def reactiveSetter (shallow : Bool) (val newVal : JSVal) : SetterOutcome :=
if jsStrictEq newVal val || (!jsStrictEq newVal newVal && !jsStrictEq val val) then
  { val := val, observeCalled := false, notified := false }
else
  { val := newVal, observeCalled := !shallow, notified := true }

/-! ## Watcher.run (observer/watcher.js)

`run()` re-evaluates the getter (the re-evaluation's result is the
parameter `newValue`) and fires the callback when
`value !== this.value || isObject(value) || this.deep`.
`cbThrows` models the user-supplied callback throwing when invoked. -/

structure Watcher where
active : Bool
user : Bool
deep : Bool
value : JSVal
deriving DecidableEq, Repr

structure RunResult where
/-- the watcher's stored `value` after `run()` returns -/
value : JSVal
/-- `this.cb.call(this.vm, value, oldValue)` happened, with these arguments -/
cbArgs : Option (JSVal × JSVal)
/-- `handleError` was called (user callback threw and was caught) -/
reported : Bool
/-- an exception escaped `run()` (non-user callback threw) -/
threw : Bool
deriving DecidableEq, Repr

def Watcher.run (w : Watcher) (newValue : JSVal) (cbThrows : Bool) : RunResult :=
if !w.active then
  { value := w.value, cbArgs := none, reported := false, threw := false }
else if !jsStrictEq newValue w.value || isObject newValue || w.deep then
  let oldValue := w.value
  if w.user then
    { value := newValue, cbArgs := some (newValue, oldValue),
      reported := cbThrows, threw := false }
  else
    { value := newValue, cbArgs := some (newValue, oldValue),
      reported := false, threw := cbThrows }
else
  { value := w.value, cbArgs := none, reported := false, threw := false }

/-- The "differs" test the property-write suppression uses (negated):
the write path treats `newVal` as changed when it is not a strict match
and not in the both-`NaN` case. -/
def writeRuleDiffers (oldV newV : JSVal) : Bool :=
!(jsStrictEq newV oldV || (!jsStrictEq newV newV && !jsStrictEq oldV oldV))

/-! ## Scheduler (observer/scheduler.js)

The module-level mutable state (`queue`, `has`, `circular`, `waiting`,
`flushing`, `index`) becomes a record.  Watchers are identified by their
(unique, monotonically assigned) `id`; what a watcher's `run()` enqueues
is abstracted by an effect map `eff : id → list of ids it queues via
queueWatcher` (the development-mode `circular` bookkeeping is modeled,
matching the claims, which are about the dev-mode warning).  The
`nextTick` machinery is external: a flush is invoked explicitly, which
models the scheduled tick firing, and `config.async = true` is assumed
(the non-async debug path is dead in production builds).
`watcher.before` and the post-flush `activated`/`updated` lifecycle
hooks call into excluded collaborators and carry no scheduler state, so
they are not modeled. -/

structure SchedState where
queue : List Nat
has : List Nat
circular : List (Nat × Nat)
waiting : Bool
flushing : Bool
index : Nat
deriving DecidableEq, Repr

def initSched : SchedState :=
{ queue := [], has := [], circular := [], waiting := false, flushing := false, index := 0 }

def MAX_UPDATE_COUNT : Nat := 100

/-- `circular[id] || 0` -/
def circGet (c : List (Nat × Nat)) (id : Nat) : Nat :=
match c.find? (fun p => p.1 == id) with
| some p => p.2
| none => 0

/-- `circular[id] = n` -/
def circSet (c : List (Nat × Nat)) (id n : Nat) : List (Nat × Nat) :=
match c with
| [] => [(id, n)]
| p :: rest => if p.1 = id then (id, n) :: rest else p :: circSet rest id n

/-- The `while (i > index && queue[i].id > watcher.id) i--` loop of
`queueWatcher`, returning the final `i + 1` (the splice position).
The argument is the running value of `i`. -/
def spliceAfter (queue : List Nat) (index id : Nat) : Nat → Nat
| 0 => 1
| i+1 =>
  if i+1 > index ∧ queue.getD (i+1) 0 > id then spliceAfter queue index id i
  else i + 2

/-- `queueWatcher(watcher)`: skip if the id is already pending; else mark
it pending and either push onto the queue (not flushing) or splice it in
at its sorted position past the cursor (flushing).  `waiting` ends up
true either way (the `nextTick(flushSchedulerQueue)` registration is the
caller's concern). -/
def queueWatcher (s : SchedState) (id : Nat) : SchedState :=
if id ∈ s.has then s
else
  let s' : SchedState := { s with has := s.has ++ [id] }
  if s'.flushing = false then
    { s' with queue := s'.queue ++ [id], waiting := true }
  else
    let pos := spliceAfter s'.queue s'.index id (s'.queue.length - 1)
    { s' with queue := s'.queue.take pos ++ id :: s'.queue.drop pos, waiting := true }

inductive SchedEvent where
| run (id : Nat)
| warnLoop (id : Nat)
deriving DecidableEq, Repr

/-- `watcher.run()`, from the scheduler's viewpoint: it may re-enter
`queueWatcher` any number of times (dependency writes made by the
callback). -/
def runWatcher (eff : Nat → List Nat) (s : SchedState) (id : Nat) : SchedState :=
(eff id).foldl queueWatcher s

/-- The `for (index = 0; index < queue.length; index++)` loop of
`flushSchedulerQueue`: run the watcher at the cursor, clear its pending
flag first, then (dev mode) bump `circular[id]` if the id was re-queued
during its own run and `break` out of the whole loop past
`MAX_UPDATE_COUNT`.  The queue may grow while iterating, so the loop is
not structurally bounded: `fuel` makes the model total (the JS loop can
genuinely diverge for effect maps whose cycle never re-queues the
currently running id). -/
def flushLoop (eff : Nat → List Nat) : Nat → SchedState → List SchedEvent × SchedState
| 0, s => ([], s)
| fuel+1, s =>
  if s.index < s.queue.length then
    let id := s.queue.getD s.index 0
    let s1 : SchedState := { s with has := s.has.erase id }
    let s2 := runWatcher eff s1 id
    if id ∈ s2.has then
      let c := circGet s2.circular id + 1
      let s3 : SchedState := { s2 with circular := circSet s2.circular id c }
      if c > MAX_UPDATE_COUNT then
        ([SchedEvent.run id, SchedEvent.warnLoop id], s3)
      else
        let r := flushLoop eff fuel { s3 with index := s3.index + 1 }
        (SchedEvent.run id :: r.1, r.2)
    else
      let r := flushLoop eff fuel { s2 with index := s2.index + 1 }
      (SchedEvent.run id :: r.1, r.2)
  else ([], s)

/-- `resetSchedulerState()` -/
def resetSchedulerState (_ : SchedState) : SchedState :=
{ queue := [], has := [], circular := [], waiting := false, flushing := false, index := 0 }

/-- `flushSchedulerQueue()`: set `flushing`, sort the queue ascending by
id (`queue.sort((a, b) => a.id - b.id)`; ids are distinct, so any
correct sort yields the same list as insertion sort), iterate, then
reset all scheduler state. -/
def flushSchedulerQueue (eff : Nat → List Nat) (fuel : Nat) (s : SchedState) :
    List SchedEvent × SchedState :=
let s' : SchedState :=
  { s with flushing := true, index := 0, queue := List.insertionSort (· ≤ ·) s.queue }
let r := flushLoop eff fuel s'
(r.1, resetSchedulerState r.2)

/-- The ids of the `run` events of a flush, in order. -/
def runEventIds (evs : List SchedEvent) : List Nat :=
evs.filterMap fun e => match e with | .run i => some i | .warnLoop _ => none

/-- Effect map of the C1 scenario: watcher 1's callback always rewrites
its own dependency, so running it re-queues id 1; watcher 2 queues
nothing. -/
def selfLoopEff : Nat → List Nat := fun id => if id = 1 then [1] else []

/-- Effect map of the C6 counterexample scenario: watcher 2's callback
writes a dependency of watcher 1, re-queuing id 1 mid-flush. -/
def crossEff : Nat → List Nat := fun id => if id = 2 then [1] else []

/-- Effect map for watchers that queue nothing when run. -/
def noEff : Nat → List Nat := fun _ => []

/-- Enqueue a batch of watcher ids within one synchronous tick (before
the scheduled flush fires). -/
def enqueueAll (ids : List Nat) : SchedState := ids.foldl queueWatcher initSched

/-! ## Intercepted array mutators (observer/array.js)

`arrayMethods` replaces the seven structural mutators; each interceptor
runs `const result = original.apply(this, args)`, computes `inserted`
(all args for push/unshift, `args.slice(2)` for splice, undefined
otherwise), runs `ob.observeArray(inserted)` when `inserted` is set
(`observeArray` calls `observe` on every element), calls
`ob.dep.notify()` once, and returns `result`.  The order of these steps
is recorded in an event list. -/

inductive ArrayMethod where
| push | pop | shift | unshift | splice | sort | reverse
deriving DecidableEq, Repr

/-- The JS return value of a native array method: a plain value
(push/unshift return the new length, pop/shift the removed element or
undefined) or an array (splice returns the removed slice, sort/reverse
return the array itself). -/
inductive NativeRet where
| val (v : JSVal)
| list (l : List JSVal)
deriving DecidableEq, Repr

/-- `ToIntegerOrInfinity` as used for splice index arguments; numeric
strings are not modeled, and NaN/undefined/objects coerce to 0. -/
def jsToIndex : JSVal → Int
| .num n => n
| .bool true => 1
| _ => 0

/-- `ToString`, for the default sort comparator (object formatting is
approximated; no claim depends on the resulting permutation). -/
def jsToString : JSVal → String
| .undef => "undefined"
| .nul => "null"
| .bool true => "true"
| .bool false => "false"
| .num n => toString n
| .nan => "NaN"
| .str s => s
| .obj _ => "[object Object]"

/-- `Array.prototype.splice(start, deleteCount, ...items)` on the list
contents: returns (contents after, removed slice).  Negative `start`
counts from the end; a missing `deleteCount` deletes to the end. -/
def spliceNative (arr : List JSVal) (args : List JSVal) : List JSVal × List JSVal :=
match args with
| [] => (arr, [])
| _ =>
  let len : Int := arr.length
  let start := jsToIndex (args.getD 0 .undef)
  let actualStart : Nat := (if start < 0 then max (len + start) 0 else min start len).toNat
  let deleteCount : Nat :=
    if args.length = 1 then arr.length - actualStart
    else (min (max (jsToIndex (args.getD 1 .undef)) 0) (len - actualStart)).toNat
  let items := args.drop 2
  (arr.take actualStart ++ items ++ arr.drop (actualStart + deleteCount),
    (arr.drop actualStart).take deleteCount)

/-- The seven native operations (`const original = arrayProto[method]`),
on the list contents, returning (contents after, JS return value).  The
default sort comparator orders by string conversion; the exact
permutation is irrelevant to every claim. -/
def nativeApply (m : ArrayMethod) (args : List JSVal) (arr : List JSVal) :
    List JSVal × NativeRet :=
match m with
| .push => (arr ++ args, .val (.num ((arr.length + args.length : Nat) : Int)))
| .pop =>
  match arr.getLast? with
  | some v => (arr.dropLast, .val v)
  | none => ([], .val .undef)
| .shift =>
  match arr with
  | [] => ([], .val .undef)
  | v :: rest => (rest, .val v)
| .unshift => (args ++ arr, .val (.num ((args.length + arr.length : Nat) : Int)))
| .splice =>
  let r := spliceNative arr args
  (r.1, .list r.2)
| .sort =>
  let a := List.insertionSort (fun x y => jsToString x ≤ jsToString y) arr
  (a, .list a)
| .reverse => (arr.reverse, .list arr.reverse)

inductive ArrEvent where
| native
| observeElem (v : JSVal)
| notify
deriving DecidableEq, Repr

structure MutatorResult where
arr : List JSVal
ret : NativeRet
events : List ArrEvent
deriving DecidableEq, Repr

/-- The `function mutator (...args)` interceptor installed on
`arrayMethods[method]`. -/
def mutator (m : ArrayMethod) (args : List JSVal) (arr : List JSVal) : MutatorResult :=
let native := nativeApply m args arr
let inserted : Option (List JSVal) :=
  match m with
  | .push => some args
  | .unshift => some args
  | .splice => some (args.drop 2)
  | _ => none
{ arr := native.1, ret := native.2,
  events := ArrEvent.native ::
    ((inserted.getD []).map ArrEvent.observeElem ++ [ArrEvent.notify]) }

/-- The elements the spec says become reactive: all arguments for
push/unshift, the arguments from position 2 onward for splice, none for
the other methods. -/
def insertedElems : ArrayMethod → List JSVal → List JSVal
| .push, args => args
| .unshift, args => args
| .splice, args => args.drop 2
| _, _ => []

/-! ## observe (observer/index.js)

A candidate value is described by the predicates `observe` branches on.
The `hasOwn(value, '__ob__') && value.__ob__ instanceof Observer` test
is modeled by `ob.isSome`: the only code that ever writes `__ob__` is
the Observer constructor (`def(value, '__ob__', this)`), so a present
`__ob__` always holds an Observer.  `asRootData` only increments
`vmCount`, which no claim touches. -/

structure JSObj where
/-- `isObject(value)` -/
isObjectLike : Bool
/-- `value instanceof VNode` -/
isVNode : Bool
/-- the `__ob__` field: the attached Observer's id, when present -/
ob : Option Nat
isArray : Bool
isPlainObject : Bool
/-- `Object.isExtensible(value)` -/
extensible : Bool
/-- `value._isVue` -/
isVue : Bool
deriving DecidableEq, Repr

/-- `observe(value)`: the returned Observer id (if any) and the value
afterwards.  `fresh` is the id a newly constructed Observer receives;
`shouldObserve` and `ssr` are the module-level switches. -/
def observe (shouldObserve ssr : Bool) (fresh : Nat) (v : JSObj) : Option Nat × JSObj :=
if !v.isObjectLike || v.isVNode then (none, v)
else if v.ob.isSome then (v.ob, v)
else if shouldObserve && !ssr && (v.isArray || v.isPlainObject) && v.extensible && !v.isVue then
  (some fresh, { v with ob := some fresh })
else (none, v)

/-! ## Virtual nodes (vdom/vnode.js) and the patch engine (vdom/patch.js)

A Virtual Node carries the fields the patch engine branches on.  Object
identity (JS `===` on vnodes) is an explicit `oid`; backing DOM nodes
are ids, and the document is a map from parent element id to the
ordered list of its child element ids.  The pluggable module hooks
(`cbs.create/update/destroy/...`) and the component lifecycle hooks are
excluded collaborators; the structural work the engine itself performs
is recorded in an operation log. -/

structure PVNodeData where
/-- `data.attrs.type` (read by sameInputType) -/
attrsType : Option String := none
/-- `data.hook.init` is defined -/
hookInit : Bool := false
/-- `data.keepAlive` -/
keepAlive : Bool := false
/-- `data.pre` -/
pre : Bool := false
/-- `data.key` -/
keyAttr : Option Nat := none
/-- `data.__ob__` is defined (the data bag is observed) -/
ob : Bool := false
/-- `data.is` -/
isAttr : Option String := none
deriving DecidableEq, Repr

structure VnodeCore where
tag : Option String := none
data : Option PVNodeData := none
text : Option String := none
elm : Option Nat := none
key : Option Nat := none
isComment : Bool := false
isStatic : Bool := false
isCloned : Bool := false
isOnce : Bool := false
isAsyncPlaceholder : Bool := false
asyncFactory : Option Nat := none
asyncFactoryError : Bool := false
asyncFactoryResolved : Bool := false
componentInstance : Option Nat := none
/-- object identity: JS `===` between vnodes -/
oid : Nat := 0
deriving DecidableEq, Repr

inductive PVnode where
| node (core : VnodeCore) (children : Option (List PVnode))

def PVnode.core : PVnode → VnodeCore
| .node c _ => c

def PVnode.children : PVnode → Option (List PVnode)
| .node _ cs => cs

def PVnode.withChildren : PVnode → Option (List PVnode) → PVnode
| .node c _, cs => .node c cs

def PVnode.setCore (f : VnodeCore → VnodeCore) : PVnode → PVnode
| .node c cs => .node (f c) cs

def PVnode.tag (v : PVnode) : Option String := v.core.tag

def PVnode.data (v : PVnode) : Option PVNodeData := v.core.data

def PVnode.text (v : PVnode) : Option String := v.core.text

def PVnode.elm (v : PVnode) : Option Nat := v.core.elm

def PVnode.key (v : PVnode) : Option Nat := v.core.key

def PVnode.isComment (v : PVnode) : Bool := v.core.isComment

def PVnode.oid (v : PVnode) : Nat := v.core.oid

def PVnode.componentInstance (v : PVnode) : Option Nat := v.core.componentInstance

/-- `vnode.dat`: the patch engine's `createComponent` begins with
`let i = vnode.dat`.  No code in the repository ever writes a `dat`
property (the surrounding code and its own comments intend
`vnode.data`), so this JS property access always yields `undefined`. -/
def PVnode.dat (_ : PVnode) : Option PVNodeData := none

/-- `createEmptyVNode(text = '')`: a fresh comment vnode with empty
text, no tag, no data and undefined children. -/
def createEmptyVNode (oid : Nat) : PVnode :=
.node { text := some "", isComment := true, oid := oid } none

/-- `cloneVNode`: shallow copy (children array sliced), same fields plus
`isCloned`, and a fresh object identity. -/
def cloneVNode (v : PVnode) (nextOid : Nat) : PVnode :=
.node { v.core with isCloned := true, oid := nextOid } v.children

/-- `isTextInputType` (web/util/element):
`makeMap('text,number,password,search,email,tel,url')`. -/
def isTextInputType : Option String → Bool
| some s => s ∈ ["text", "number", "password", "search", "email", "tel", "url"]
| none => false

/-- `sameInputType`: for `<input>` tags, the `data.attrs.type` values
must match or both be text-like. -/
def sameInputType (a b : PVnode) : Bool :=
if a.tag ≠ some "input" then true
else
  let typeA := a.data.bind PVNodeData.attrsType
  let typeB := b.data.bind PVNodeData.attrsType
  typeA == typeB || (isTextInputType typeA && isTextInputType typeB)

/-- `sameVnode`: same key, and either same tag/comment-status/data
presence/input subtype, or a matching async placeholder. -/
def sameVnode (a b : PVnode) : Bool :=
a.key == b.key &&
  ((a.tag == b.tag && a.isComment == b.isComment &&
    a.data.isSome == b.data.isSome && sameInputType a b) ||
   (a.core.isAsyncPlaceholder && a.core.asyncFactory == b.core.asyncFactory &&
    !b.core.asyncFactoryError))

/-! ### The backing document and the operation log -/

inductive PatchOp where
/-- a backing node was created (`nodeOps.createElement` / `createTextNode` /
`createComment`) -/
| created (elm : Nat)
/-- a backing node was removed from the tree -/
| removed (elm : Nat)
/-- an existing backing node was physically repositioned
(`nodeOps.insertBefore` on an already-mounted node) -/
| moved (elm : Nat)
/-- an in-place diff of an existing backing node (a `patchVnode` that
reached the module-update/children-reconcile stage) -/
| patched (elm : Nat)
/-- `nodeOps.setTextContent(elm, t)` -/
| textSet (elm : Nat) (t : String)
/-- the component `init` hook ran for the vnode with this identity -/
| initHook (oid : Nat)
deriving DecidableEq, Repr

structure PatchState where
/-- parent element id → ordered child element ids -/
dom : List (Nat × List Nat)
log : List PatchOp
nextElm : Nat
nextOid : Nat
deriving DecidableEq, Repr

def domChildrenOf (d : List (Nat × List Nat)) (parent : Nat) : List Nat :=
((d.find? (fun p => p.1 == parent)).map (·.2)).getD []

def domSetChildren (d : List (Nat × List Nat)) (parent : Nat) (l : List Nat) :
    List (Nat × List Nat) :=
match d with
| [] => [(parent, l)]
| p :: rest => if p.1 = parent then (parent, l) :: rest else p :: domSetChildren rest parent l

def domErase (d : List (Nat × List Nat)) (e : Nat) : List (Nat × List Nat) :=
d.map (fun p => (p.1, p.2.erase e))

def domParentOf (d : List (Nat × List Nat)) (e : Nat) : Option Nat :=
(d.find? (fun p => p.2.contains e)).map (·.1)

/-- `nodeOps.insertBefore(parent, e, ref)` (also covers `appendChild`
when `ref` is absent): detach `e` from wherever it is, then insert it
before `ref` among `parent`'s children (a `ref` that is not a child of
`parent` would throw in the real DOM and is not reached in the modeled
scenarios; we append). -/
def domInsertBefore (d : List (Nat × List Nat)) (parent e : Nat) (ref : Option Nat) :
    List (Nat × List Nat) :=
let d' := domErase d e
let kids := domChildrenOf d' parent
let kids' :=
  match ref with
  | some r =>
    match kids.findIdx? (· == r) with
    | some i => kids.take i ++ e :: kids.drop i
    | none => kids ++ [e]
  | none => kids ++ [e]
domSetChildren d' parent kids'

/-- `nodeOps.nextSibling(e)` -/
def domNextSibling (d : List (Nat × List Nat)) (e : Nat) : Option Nat :=
match d.find? (fun p => p.2.contains e) with
| some p =>
  match p.2.findIdx? (· == e) with
  | some i => p.2[i+1]?
  | none => none
| none => none

/-- The engine's `insert(parent, elm, ref)` helper: no-op without a
parent; insert before `ref` only when `ref`'s parent is `parent`, else
append. -/
def insertElmSt (st : PatchState) (parent : Option Nat) (e : Nat) (ref : Option Nat) :
    PatchState :=
match parent with
| none => st
| some par =>
  match ref with
  | some r =>
    if domParentOf st.dom r = some par then
      { st with dom := domInsertBefore st.dom par e (some r) }
    else st
  | none => { st with dom := domInsertBefore st.dom par e none }

/-- A physical reposition performed directly by `updateChildren`
(`canMove && nodeOps.insertBefore(...)`). -/
def domMove (st : PatchState) (parent e : Nat) (ref : Option Nat) : PatchState :=
{ st with dom := domInsertBefore st.dom parent e ref, log := st.log ++ [PatchOp.moved e] }

/-- JS array read `l[i]` with a possibly negative index. -/
def getO {α : Type} (l : List α) (i : Int) : Option α :=
if i < 0 then none else l[i.toNat]?

/-- JS array write `l[i] = a` (in-bounds only in the modeled runs). -/
def setO {α : Type} (l : List α) (i : Int) (a : α) : List α :=
if i < 0 then l else l.set i.toNat a

/-- JS object-map assignment `m[k] = i` (later assignments overwrite). -/
def keyMapInsert (m : List (Nat × Int)) (k : Nat) (i : Int) : List (Nat × Int) :=
match m with
| [] => [(k, i)]
| p :: rest => if p.1 = k then (k, i) :: rest else p :: keyMapInsert rest k i

/-- `createKeyToOldIdx(children, beginIdx, endIdx)`: map each defined key
in the window to its index.  (At the single point where it is called the
window holds no consumed-`undefined` entries yet; those are skipped.) -/
def createKeyToOldIdx (children : List (Option PVnode)) (beginI endI : Int) :
    List (Nat × Int) :=
(List.range (endI + 1 - beginI).toNat).foldl
  (fun m off =>
    let i : Int := beginI + (off : Int)
    match getO children i with
    | some (some c) =>
      match c.key with
      | some k => keyMapInsert m k i
      | none => m
    | _ => m)
  []

/-- `findIdxInOld(node, oldCh, start, end)`: first index in `[start, end)`
(the source's loop runs `i < end`, so the end slot is never examined)
holding a defined vnode that is `sameVnode` with `node`. -/
def findIdxInOld (node : PVnode) (oldCh : List (Option PVnode)) (start endI : Int) :
    Option Int :=
((List.range (endI - start).toNat).map (fun off => start + (off : Int))).find?
  (fun i =>
    match getO oldCh i with
    | some (some c) => sameVnode node c
    | _ => false)

/-- `removeVnodes(vnodes, startIdx, endIdx)`: remove every defined entry's
backing node from the document (the `remove`/`destroy` hook cascade calls
excluded collaborators; the structural effect is the removal). -/
def removeVnodes (st : PatchState) (vnodes : List (Option PVnode)) (startIdx endIdx : Int) :
    PatchState :=
(List.range (endIdx + 1 - startIdx).toNat).foldl
  (fun st off =>
    match getO vnodes (startIdx + (off : Int)) with
    | some (some c) =>
      match c.elm with
      | some e => { st with dom := domErase st.dom e, log := st.log ++ [PatchOp.removed e] }
      | none => st
    | _ => st)
  st

/-- `createComponent(vnode, insertedVnodeQueue, parentElm, refElm)` of the
patch engine.  The body reads `vnode.dat` — a never-written property —
so `isDef(i)` always fails and the function always falls through,
returning `undefined` (`none`); the remainder is translated for
completeness but is unreachable.  `initEff` models what the `init` hook
(create-component.js, an external collaborator) does to the vnode: it
constructs and mounts a child instance, setting `componentInstance`
(whose mounted root `$el` is modeled as the instance id itself). -/
def createComponent (initEff : PVnode → PVnode) (v : PVnode)
    (parentElm refElm : Option Nat) (st : PatchState) : Option (PVnode × PatchState) :=
match v.dat with
| none => none
| some d =>
  let v' := if d.hookInit then initEff v else v
  let st := if d.hookInit then { st with log := st.log ++ [PatchOp.initHook v.oid] } else st
  match v'.componentInstance with
  | some inst =>
    let v'' := v'.setCore (fun c => { c with elm := some inst })
    some (v'', insertElmSt st parentElm inst refElm)
  | none => none

/-- Modelled from the spec: the intended `createComponent`, which the
spec describes as invoking the vnode's `init` hook "before the Differ
creates a backing node for it", letting the nested component supply its
own rendered output — i.e. the same body reading the vnode's real
`data` bag (create-component.js, which installs the `init` hook, is not
part of the sources).  This is the comparison point for the `vnode.dat`
slip. -/
def createComponentAsSpecified (initEff : PVnode → PVnode) (v : PVnode)
    (parentElm refElm : Option Nat) (st : PatchState) : Option (PVnode × PatchState) :=
match v.data with
| none => none
| some d =>
  let v' := if d.hookInit then initEff v else v
  let st := if d.hookInit then { st with log := st.log ++ [PatchOp.initHook v.oid] } else st
  match v'.componentInstance with
  | some inst =>
    let v'' := v'.setCore (fun c => { c with elm := some inst })
    some (v'', insertElmSt st parentElm inst refElm)
  | none => none

mutual

/-- `createElm`: build a backing node for a vnode (component hook first,
then element/comment/text), create its children, insert it.  Every call
consumes one unit of fuel; the modeled scenarios need only small fuel. -/
def createElm (initEff : PVnode → PVnode) (fuel : Nat) (v : PVnode)
    (parentElm refElm : Option Nat) (hasOwner : Bool) (st : PatchState) :
    PVnode × PatchState :=
match fuel with
| 0 => (v, st)
| fuel+1 =>
  let p : PVnode × PatchState :=
    if v.elm.isSome && hasOwner then
      (cloneVNode v st.nextOid, { st with nextOid := st.nextOid + 1 })
    else (v, st)
  let v := p.1
  let st := p.2
  -- `vnode.isRootInsert = !nested` concerns transitions only (not modeled)
  match createComponent initEff v parentElm refElm st with
  | some r => r
  | none =>
    match v.tag with
    | some _ =>
      -- dev-mode unknown-element warning elided (warn only)
      let elm := st.nextElm
      let st : PatchState :=
        { st with nextElm := st.nextElm + 1, log := st.log ++ [PatchOp.created elm] }
      let v := v.setCore (fun c => { c with elm := some elm })
      -- setScope: scoped-CSS attribute only
      let q := createChildrenGo initEff fuel v st
      -- invokeCreateHooks: module callbacks, external
      (q.1, insertElmSt q.2 parentElm elm refElm)
    | none =>
      let elm := st.nextElm
      let st : PatchState :=
        { st with nextElm := st.nextElm + 1, log := st.log ++ [PatchOp.created elm] }
      let v := v.setCore (fun c => { c with elm := some elm })
      (v, insertElmSt st parentElm elm refElm)

/-- `createChildren`: recurse into a child array (each child with
`ownerArray = children`), or append a text node for primitive text. -/
def createChildrenGo (initEff : PVnode → PVnode) (fuel : Nat) (v : PVnode)
    (st : PatchState) : PVnode × PatchState :=
match fuel with
| 0 => (v, st)
| fuel+1 =>
  match v.children with
  | some cs =>
    -- dev checkDuplicateKeys elided (warn only)
    let q := createElmList initEff fuel cs v.elm st
    (v.withChildren (some q.1), q.2)
  | none =>
    match v.text with
    | some _ =>
      let elm := st.nextElm
      let st : PatchState :=
        { st with nextElm := st.nextElm + 1, log := st.log ++ [PatchOp.created elm] }
      (v, insertElmSt st v.elm elm none)
    | none => (v, st)

def createElmList (initEff : PVnode → PVnode) (fuel : Nat) (cs : List PVnode)
    (parent : Option Nat) (st : PatchState) : List PVnode × PatchState :=
match fuel with
| 0 => (cs, st)
| fuel+1 =>
  match cs with
  | [] => ([], st)
  | c :: rest =>
    let q := createElm initEff fuel c parent none true st
    let q' := createElmList initEff fuel rest parent q.2
    (q.1 :: q'.1, q'.2)

/-- `addVnodes(parentElm, refElm, vnodes, startIdx, endIdx, queue)` -/
def addVnodes (initEff : PVnode → PVnode) (fuel : Nat) (parentElm refElm : Option Nat)
    (vnodes : List PVnode) (startIdx endIdx : Int) (st : PatchState) :
    List PVnode × PatchState :=
match fuel with
| 0 => (vnodes, st)
| fuel+1 =>
  if startIdx ≤ endIdx then
    match getO vnodes startIdx with
    | some c =>
      let q := createElm initEff fuel c parentElm refElm true st
      addVnodes initEff fuel parentElm refElm (setO vnodes startIdx q.1) (startIdx + 1)
        endIdx q.2
    | none => (vnodes, st)
  else (vnodes, st)

/-- `patchVnode(oldVnode, vnode, queue, ownerArray, index, removeOnly)`:
early-out on identity, async-placeholder and reused-static nodes, else
diff in place (module update hooks, then children/text).  The returned
vnode carries the reused backing node (`vnode.elm = oldVnode.elm`). -/
def patchVnode (initEff : PVnode → PVnode) (fuel : Nat) (old v : PVnode)
    (hasOwner removeOnly : Bool) (st : PatchState) : PVnode × PatchState :=
match fuel with
| 0 => (v, st)
| fuel+1 =>
  if old.oid = v.oid then (v, st)
  else
    let p : PVnode × PatchState :=
      if v.elm.isSome && hasOwner then
        (cloneVNode v st.nextOid, { st with nextOid := st.nextOid + 1 })
      else (v, st)
    let v := p.1
    let st := p.2
    let v := v.setCore (fun c => { c with elm := old.elm })
    let elm := old.elm.getD 0
    if old.core.isAsyncPlaceholder then
      -- a resolved async factory would hydrate against the browser DOM
      -- (outside the model); otherwise the placeholder flag carries over
      if v.core.asyncFactoryResolved then (v, st)
      else (v.setCore (fun c => { c with isAsyncPlaceholder := true }), st)
    else if v.core.isStatic && old.core.isStatic && v.key == old.key &&
        (v.core.isCloned || v.core.isOnce) then
      (v.setCore (fun c => { c with componentInstance := old.componentInstance }), st)
    else
      -- prepatch hook: external component hook
      -- cbs.update + data.hook.update (module callbacks on the backing
      -- node) together with the in-place reconcile below make up one
      -- in-place patch of `elm`, recorded once
      let st : PatchState := { st with log := st.log ++ [PatchOp.patched elm] }
      match v.text with
      | none =>
        match old.children, v.children with
        | some oldCh, some ch =>
          -- `if (oldCh !== ch)`: child arrays from distinct render passes
          -- are distinct objects
          let q := updateChildren initEff fuel elm (oldCh.map some) ch removeOnly st
          (v.withChildren (some q.1), q.2)
        | none, some ch =>
          -- dev checkDuplicateKeys elided (warn only)
          let st : PatchState :=
            if old.text.isSome then
              { st with
                  dom := domSetChildren st.dom elm [],
                  log := st.log ++ [PatchOp.textSet elm ""] }
            else st
          let q := addVnodes initEff fuel (some elm) none ch 0 ((ch.length : Int) - 1) st
          (v.withChildren (some q.1), q.2)
        | some oldCh, none =>
          (v, removeVnodes st (oldCh.map some) 0 ((oldCh.length : Int) - 1))
        | none, none =>
          if old.text.isSome then
            (v, { st with
                    dom := domSetChildren st.dom elm [],
                    log := st.log ++ [PatchOp.textSet elm ""] })
          else (v, st)
      | some t =>
        if old.text ≠ some t then
          (v, { st with
                  dom := domSetChildren st.dom elm [],
                  log := st.log ++ [PatchOp.textSet elm t] })
        else (v, st)
      -- postpatch hook: external component hook

/-- `updateChildren(parentElm, oldCh, newCh, queue, removeOnly)`: the
four-pointer keyed child-list diff. -/
def updateChildren (initEff : PVnode → PVnode) (fuel : Nat) (parentElm : Nat)
    (oldArr : List (Option PVnode)) (newArr : List PVnode) (removeOnly : Bool)
    (st : PatchState) : List PVnode × PatchState :=
match fuel with
| 0 => (newArr, st)
| fuel+1 =>
  -- dev checkDuplicateKeys elided (warn only)
  ucLoop initEff fuel parentElm oldArr newArr removeOnly st
    0 ((oldArr.length : Int) - 1) 0 ((newArr.length : Int) - 1) none

/-- The `while (oldStartIdx <= oldEndIdx && newStartIdx <= newEndIdx)`
loop of `updateChildren`, followed by the trailing bulk add/remove. -/
def ucLoop (initEff : PVnode → PVnode) (fuel : Nat) (parentElm : Nat)
    (oldArr : List (Option PVnode)) (newArr : List PVnode) (removeOnly : Bool)
    (st : PatchState) (oldStartIdx oldEndIdx newStartIdx newEndIdx : Int)
    (oldKeyToIdx : Option (List (Nat × Int))) : List PVnode × PatchState :=
match fuel with
| 0 => (newArr, st)
| fuel+1 =>
  let canMove := !removeOnly
  if oldStartIdx ≤ oldEndIdx ∧ newStartIdx ≤ newEndIdx then
    match (getO oldArr oldStartIdx).join with
    | none =>
      -- isUndef(oldStartVnode): Vnode has been moved left
      ucLoop initEff fuel parentElm oldArr newArr removeOnly st
        (oldStartIdx + 1) oldEndIdx newStartIdx newEndIdx oldKeyToIdx
    | some osv =>
      match (getO oldArr oldEndIdx).join with
      | none =>
        ucLoop initEff fuel parentElm oldArr newArr removeOnly st
          oldStartIdx (oldEndIdx - 1) newStartIdx newEndIdx oldKeyToIdx
      | some oev =>
        match getO newArr newStartIdx, getO newArr newEndIdx with
        | some nsv, some nev =>
          if sameVnode osv nsv then
            let q := patchVnode initEff fuel osv nsv true removeOnly st
            ucLoop initEff fuel parentElm oldArr (setO newArr newStartIdx q.1) removeOnly
              q.2 (oldStartIdx + 1) oldEndIdx (newStartIdx + 1) newEndIdx oldKeyToIdx
          else if sameVnode oev nev then
            let q := patchVnode initEff fuel oev nev true removeOnly st
            ucLoop initEff fuel parentElm oldArr (setO newArr newEndIdx q.1) removeOnly
              q.2 oldStartIdx (oldEndIdx - 1) newStartIdx (newEndIdx - 1) oldKeyToIdx
          else if sameVnode osv nev then
            -- Vnode moved right: patch, then move old-start's node to just
            -- after old-end's node
            let q := patchVnode initEff fuel osv nev true removeOnly st
            let st' :=
              if canMove then
                domMove q.2 parentElm (osv.elm.getD 0)
                  (domNextSibling q.2.dom (oev.elm.getD 0))
              else q.2
            ucLoop initEff fuel parentElm oldArr (setO newArr newEndIdx q.1) removeOnly
              st' (oldStartIdx + 1) oldEndIdx newStartIdx (newEndIdx - 1) oldKeyToIdx
          else if sameVnode oev nsv then
            -- Vnode moved left: patch, then move old-end's node before
            -- old-start's node
            let q := patchVnode initEff fuel oev nsv true removeOnly st
            let st' :=
              if canMove then domMove q.2 parentElm (oev.elm.getD 0) osv.elm
              else q.2
            ucLoop initEff fuel parentElm oldArr (setO newArr newStartIdx q.1) removeOnly
              st' oldStartIdx (oldEndIdx - 1) (newStartIdx + 1) newEndIdx oldKeyToIdx
          else
            -- fallback: lazy key map, then keyed lookup / linear scan
            let km :=
              match oldKeyToIdx with
              | some m => m
              | none => createKeyToOldIdx oldArr oldStartIdx oldEndIdx
            let idxInOld : Option Int :=
              match nsv.key with
              | some k => (km.find? (fun p => p.1 == k)).map (·.2)
              | none => findIdxInOld nsv oldArr oldStartIdx oldEndIdx
            match idxInOld with
            | none =>
              -- brand-new element: create before old-start's backing node
              let q := createElm initEff fuel nsv (some parentElm) osv.elm true st
              ucLoop initEff fuel parentElm oldArr (setO newArr newStartIdx q.1)
                removeOnly q.2 oldStartIdx oldEndIdx (newStartIdx + 1) newEndIdx (some km)
            | some idx =>
              match (getO oldArr idx).join with
              | none =>
                -- a consumed slot cannot be looked up again (its key was
                -- removed from the window exactly once); unreachable
                (newArr, st)
              | some vtm =>
                if sameVnode vtm nsv then
                  let q := patchVnode initEff fuel vtm nsv true removeOnly st
                  let oldArr' := setO oldArr idx none
                  let st' :=
                    if canMove then domMove q.2 parentElm (vtm.elm.getD 0) osv.elm
                    else q.2
                  ucLoop initEff fuel parentElm oldArr' (setO newArr newStartIdx q.1)
                    removeOnly st' oldStartIdx oldEndIdx (newStartIdx + 1) newEndIdx
                    (some km)
                else
                  -- same key but different element: treat as new element
                  let q := createElm initEff fuel nsv (some parentElm) osv.elm true st
                  ucLoop initEff fuel parentElm oldArr (setO newArr newStartIdx q.1)
                    removeOnly q.2 oldStartIdx oldEndIdx (newStartIdx + 1) newEndIdx
                    (some km)
        | _, _ => (newArr, st)
  else
    if oldStartIdx > oldEndIdx then
      let refElm : Option Nat :=
        match getO newArr (newEndIdx + 1) with
        | some nv => nv.elm
        | none => none
      addVnodes initEff fuel (some parentElm) refElm newArr newStartIdx newEndIdx st
    else if newStartIdx > newEndIdx then
      (newArr, removeVnodes st oldArr oldStartIdx oldEndIdx)
    else (newArr, st)

end

/-! ## _createElement (vdom/create-element.js)

The argument-reshuffling `createElement` wrapper and the children
normalization helpers (one-level flatten / text-vnode creation) never
change which branch `_createElement` takes and are not modeled; nor are
non-string constructor tags (a component-options tag goes straight to
the external `createComponent`).  The platform predicates
(`config.isReservedTag`, component registry lookup) and the external
`createComponent` of create-element (create-component.js is not among
the sources) are parameters. -/

/-- `tag = data.is` substitution: the tag actually dispatched on. -/
def effectiveTag (tag : Option String) (data : Option PVNodeData) : Option String :=
match data.bind PVNodeData.isAttr with
| some s => some s
| none => tag

/-- JS truthiness of the tag (`!tag`): undefined and the empty string
are falsy. -/
def truthyTag : Option String → Bool
| none => false
| some s => !(s == "")

def _createElement (isReservedTag isComponent : String → Bool)
    (mkComponent : String → Option PVNodeData → Option (List PVnode) → Nat → Option PVnode)
    (tag : Option String) (data : Option PVNodeData) (children : Option (List PVnode))
    (oid : Nat) : PVnode :=
if (data.map PVNodeData.ob).getD false then
  -- observed data bag: dev warning, then an empty vnode
  createEmptyVNode oid
else
  let tag := effectiveTag tag data
  if !truthyTag tag then createEmptyVNode oid
  else
    -- dev non-primitive-key warning elided; function-children scoped-slot
    -- rewrite is outside the modeled value domain; normalization keeps the
    -- branch structure unchanged
    match tag with
    | some t =>
      if isReservedTag t then
        PVnode.node
          { tag := some t, data := data, key := data.bind PVNodeData.keyAttr, oid := oid }
          children
      else if (data.isNone || !(data.getD {}).pre) && isComponent t then
        match mkComponent t data children oid with
        | some vn => vn
        | none => createEmptyVNode oid
      else
        -- unknown or unlisted namespaced element
        PVnode.node
          { tag := some t, data := data, key := data.bind PVNodeData.keyAttr, oid := oid }
          children
    | none => createEmptyVNode oid

/-! ### Concrete scenarios for the patch-engine claims -/

/-- Identity init effect, for scenarios without component hooks. -/
def effNoop : PVnode → PVnode := id

/-- A keyed childless element vnode (a list item of the diff scenario). -/
def mkLeaf (key : Nat) (elm : Option Nat) (oid : Nat) : PVnode :=
PVnode.node
  { tag := some "li", data := some {}, key := some key, elm := elm, oid := oid } none

/-- Old children [A(key 1), B(key 2), C(key 3)] with backing nodes
10, 11, 12 under parent element 1. -/
def reorderOld : List PVnode := [mkLeaf 1 (some 10) 1, mkLeaf 2 (some 11) 2, mkLeaf 3 (some 12) 3]

/-- New children [C(key 3), A(key 1), B(key 2)], fresh render objects
with no backing nodes yet. -/
def reorderNew : List PVnode := [mkLeaf 3 none 4, mkLeaf 1 none 5, mkLeaf 2 none 6]

def reorderSt : PatchState := { dom := [(1, [10, 11, 12])], log := [], nextElm := 100, nextOid := 100 }

/-- The modeled effect of the component `init` hook: construct and mount
the child instance (id 77). -/
def initEffSample : PVnode → PVnode :=
fun v => v.setCore (fun c => { c with componentInstance := some 77 })

/-- A component placeholder vnode whose data bag carries a hook object
with an `init` callback. -/
def componentVnode : PVnode :=
PVnode.node
  { tag := some "vue-component-1-child", data := some { hookInit := true }, oid := 50 } none

def componentSt : PatchState := { dom := [(1, [])], log := [], nextElm := 100, nextOid := 200 }

end VueCore

/-! ### Claim C4 -/

/-- C4: for every reactive property created by `defineReactive`, a write
whose new value is strict-equal to the current value, or where both the
new and the current value are NaN, is a no-op: the stored value stays
unchanged, `observe` is not called on the new value, and the property's
Dep notifies no subscriber. -/
theorem reactiveSetter_noop_on_same_or_both_nan (shallow : Bool) (val newVal : VueCore.JSVal)
    (h : VueCore.jsStrictEq newVal val = true ∨
      (VueCore.jsStrictEq newVal newVal = false ∧ VueCore.jsStrictEq val val = false)) :
    VueCore.reactiveSetter shallow val newVal =
      { val := val, observeCalled := false, notified := false } := by
unfold VueCore.reactiveSetter
rcases h with h | ⟨h1, h2⟩
· simp [h]
· simp [h1, h2]

/-- Witness for C4: writing `NaN` over a stored `NaN` does not notify. -/
theorem reactiveSetter_noop_on_same_or_both_nan_witness :
    (VueCore.jsStrictEq VueCore.JSVal.nan VueCore.JSVal.nan = false ∧
      VueCore.jsStrictEq VueCore.JSVal.nan VueCore.JSVal.nan = false) ∧
    VueCore.reactiveSetter false VueCore.JSVal.nan VueCore.JSVal.nan =
      { val := VueCore.JSVal.nan, observeCalled := false, notified := false } :=
⟨⟨by decide, by decide⟩,
  reactiveSetter_noop_on_same_or_both_nan false VueCore.JSVal.nan VueCore.JSVal.nan
    (Or.inr ⟨by decide, by decide⟩)⟩

/-! ### Claim C5 -/

/-- C5 counterexample: the claim says `run()` fires the callback iff the
new value differs from the old "under the same equality rule as property
writes (not a strict match and not both NaN)", or is a record/container,
or the watcher is deep.  But `run()` compares with plain `!==`: for an
active, non-user, non-deep watcher whose stored value is `NaN`,
re-evaluating to `NaN` *does* invoke the callback, although the write
rule counts the value as unchanged, it is no record/container, and the
watcher is not deep. -/
theorem watcher_run_fires_on_nan_counterexample :
    (VueCore.Watcher.run
        { active := true, user := false, deep := false, value := VueCore.JSVal.nan }
        VueCore.JSVal.nan false).cbArgs =
      some (VueCore.JSVal.nan, VueCore.JSVal.nan) ∧
    VueCore.writeRuleDiffers VueCore.JSVal.nan VueCore.JSVal.nan = false ∧
    VueCore.isObject VueCore.JSVal.nan = false := by
refine ⟨?_, by decide, by decide⟩
decide

/-- C5 (amended): `run()` invokes the callback with (newValue, oldValue)
iff the watcher is active and (the new value is not *strictly* equal to
the old — plain `!==`, with no NaN carve-out — or the new value is a
record/container, or the watcher is deep); a throwing user callback is
caught and reported without propagating, a throwing internal (render)
callback propagates, and `run()` on a torn-down watcher is a complete
no-op. -/
theorem watcher_run_characterization (w : VueCore.Watcher) (newValue : VueCore.JSVal)
    (cbThrows : Bool) :
    let r := VueCore.Watcher.run w newValue cbThrows
    (r.cbArgs = if w.active &&
        (!VueCore.jsStrictEq newValue w.value || VueCore.isObject newValue || w.deep)
      then some (newValue, w.value) else none) ∧
    (r.reported = (r.cbArgs.isSome && w.user && cbThrows)) ∧
    (r.threw = (r.cbArgs.isSome && !w.user && cbThrows)) ∧
    (w.active = false →
      r = { value := w.value, cbArgs := none, reported := false, threw := false }) := by
unfold VueCore.Watcher.run
cases hA : w.active <;>
  cases hF : (!VueCore.jsStrictEq newValue w.value || VueCore.isObject newValue || w.deep) <;>
    cases hU : w.user <;> simp [hA, hF, hU]

/-! ### Scheduler helper lemmas -/

/-- A second `queueWatcher` call for an id that is already pending is a
no-op (the `has[id] == null` guard). -/
theorem queueWatcher_of_mem (s : VueCore.SchedState) (id : Nat) (h : id ∈ s.has) :
    VueCore.queueWatcher s id = s := by
unfold VueCore.queueWatcher
simp [h]

/-- After any `queueWatcher` call the id is marked pending. -/
theorem mem_has_queueWatcher (s : VueCore.SchedState) (id : Nat) :
    id ∈ (VueCore.queueWatcher s id).has := by
unfold VueCore.queueWatcher
by_cases h : id ∈ s.has
· simp [h]
· by_cases hf : s.flushing = false <;> simp [h, hf]

/-- `queueWatcher` keeps the pending set duplicate-free and does not
touch the `flushing` flag. -/
theorem queueWatcher_nodup_flushing (s : VueCore.SchedState) (id : Nat)
    (hnd : s.has.Nodup) :
    (VueCore.queueWatcher s id).has.Nodup ∧
      (VueCore.queueWatcher s id).flushing = s.flushing := by
unfold VueCore.queueWatcher
by_cases h : id ∈ s.has
· simp [h, hnd]
· by_cases hf : s.flushing = false <;>
    simp [h, hf, List.nodup_append, hnd, List.disjoint_singleton]

/-- Enqueuing a batch from the idle scheduler keeps the pending set
duplicate-free. -/
theorem enqueueAll_has_nodup (ids : List Nat) : (VueCore.enqueueAll ids).has.Nodup := by
unfold VueCore.enqueueAll
have main : ∀ l : List Nat, ∀ s : VueCore.SchedState, s.has.Nodup →
    (l.foldl VueCore.queueWatcher s).has.Nodup := by
  intro l
  induction l with
  | nil => intro s hs; simpa using hs
  | cons a t ih =>
    intro s hs
    exact ih _ ((queueWatcher_nodup_flushing s a hs).1)
exact main ids VueCore.initSched (by simp [VueCore.initSched])

/-- With watchers that enqueue nothing when run, the flush loop simply
runs the remaining queue entries in order. -/
theorem flushLoop_noEff (fuel : Nat) :
    ∀ s : VueCore.SchedState, s.has.Nodup → s.queue.length - s.index ≤ fuel →
      (VueCore.flushLoop VueCore.noEff fuel s).1 =
        (s.queue.drop s.index).map VueCore.SchedEvent.run := by
induction fuel with
| zero =>
  intro s _ hf
  have hle : s.queue.length ≤ s.index := by omega
  simp [VueCore.flushLoop, List.drop_eq_nil_of_le hle]
| succ n ih =>
  intro s hnd hf
  rw [VueCore.flushLoop]
  by_cases h : s.index < s.queue.length
  · have hmem : s.queue.getD s.index 0 ∉ s.has.erase (s.queue.getD s.index 0) := by
      intro hm
      exact ((List.Nodup.mem_erase_iff hnd).mp hm).1 rfl
    have hrec := ih
      { s with has := s.has.erase (s.queue.getD s.index 0), index := s.index + 1 }
      (hnd.erase _) (by simp; omega)
    simp only [h, if_true, VueCore.runWatcher, VueCore.noEff, List.foldl_nil]
    simp only [hmem, if_false, if_neg]
    have hgd : s.queue.getD s.index 0 = s.queue[s.index] := by
      simp [List.getD_eq_getElem?_getD, List.getElem?_eq_getElem h]
    simp only [hrec] at *
    rw [List.drop_eq_getElem_cons h, List.map_cons, hgd]
  · have hge : s.queue.length ≤ s.index := Nat.not_lt.mp h
    simp [h, List.drop_eq_nil_of_le hge]

/-- Projecting the run ids back out of a pure run log. -/
theorem runEventIds_map_run (l : List Nat) :
    VueCore.runEventIds (l.map VueCore.SchedEvent.run) = l := by
unfold VueCore.runEventIds
induction l with
| nil => rfl
| cons a t ih => simp [ih]

/-! ### Claim C1 -/

set_option maxRecDepth 100000

/-- C1 counterexample: enqueue watcher 1 (whose callback always rewrites
its own dependency) and watcher 2 in the same tick.  In the resulting
flush the "infinite update loop" warning fires only after the 101st
re-enqueue of id 1 (`circular[1] > MAX_UPDATE_COUNT` first holds at
101), not after exactly 100; and the `break` abandons the whole loop, so
watcher 2 — still pending in the queue — never runs in that flush,
contradicting "the remaining queued Subscribers still run". -/
theorem flushSchedulerQueue_runaway_counterexample :
    ((VueCore.flushSchedulerQueue VueCore.selfLoopEff 200
        (VueCore.queueWatcher (VueCore.queueWatcher VueCore.initSched 1) 2)).1.count
      (VueCore.SchedEvent.run 1) = 101) ∧
    ((VueCore.flushSchedulerQueue VueCore.selfLoopEff 200
        (VueCore.queueWatcher (VueCore.queueWatcher VueCore.initSched 1) 2)).1.count
      (VueCore.SchedEvent.warnLoop 1) = 1) ∧
    ((VueCore.flushSchedulerQueue VueCore.selfLoopEff 200
        (VueCore.queueWatcher (VueCore.queueWatcher VueCore.initSched 1) 2)).1.count
      (VueCore.SchedEvent.run 2) = 0) := by
refine ⟨?_, ?_, ?_⟩ <;> decide

/-- C1 (amended): in the runaway scenario the warning fires on the 101st
re-enqueue of id 1 within the flush (when the per-id counter first
exceeds the threshold `MAX_UPDATE_COUNT = 100`), and the `break` then
abandons processing of *all* remaining queued Subscribers for that
flush — watcher 2 is skipped — while the flush itself still completes
without a hard failure: the scheduler state is fully reset afterwards.
The run log is exactly 101 runs of id 1 followed by the warning, and the
loop exits with `circular = [(1, 101)]`. -/
theorem flushSchedulerQueue_runaway_break :
    (VueCore.flushSchedulerQueue VueCore.selfLoopEff 200
        (VueCore.queueWatcher (VueCore.queueWatcher VueCore.initSched 1) 2) =
      (List.replicate 101 (VueCore.SchedEvent.run 1) ++ [VueCore.SchedEvent.warnLoop 1],
        VueCore.initSched)) ∧
    ((VueCore.flushLoop VueCore.selfLoopEff 200
        { VueCore.queueWatcher (VueCore.queueWatcher VueCore.initSched 1) 2 with
            flushing := true,
            index := 0,
            queue := List.insertionSort (· ≤ ·)
              (VueCore.queueWatcher (VueCore.queueWatcher VueCore.initSched 1) 2).queue }).2.circular
      = [(1, VueCore.MAX_UPDATE_COUNT + 1)]) := by
refine ⟨?_, ?_⟩ <;> decide

/-! ### Claim C6 -/

/-- C6 counterexample: watcher 1 and watcher 2 are enqueued in the same
tick, but watcher 2's callback rewrites a dependency of watcher 1,
re-queuing id 1 mid-flush.  The flush then runs ids in the order
1, 2, 1 — not an ascending sequence — refuting "within one flush
Subscribers run in ascending id order" in full generality. -/
theorem flushSchedulerQueue_order_counterexample :
    VueCore.runEventIds (VueCore.flushSchedulerQueue VueCore.crossEff 10
        (VueCore.queueWatcher (VueCore.queueWatcher VueCore.initSched 1) 2)).1 = [1, 2, 1] ∧
    ¬ List.Sorted (· ≤ ·) ([1, 2, 1] : List Nat) := by
exact ⟨by decide, by decide⟩

/-- C6 (amended): watchers A (id 1) and B (id 2) enqueued within the
same synchronous tick run in the order A then B, and in general all
Subscribers *pending when the flush begins* run in ascending id order
(the queue is sorted ascending at flush start), provided no Subscriber
enqueues another during the flush; a Subscriber enqueued mid-flush with
an id not greater than the running one is spliced right after the
cursor and runs immediately next, so the whole-flush run sequence need
not be globally ascending. -/
theorem flushSchedulerQueue_ascending :
    VueCore.runEventIds (VueCore.flushSchedulerQueue VueCore.noEff 2
      (VueCore.enqueueAll [2, 1])).1 = [1, 2] ∧
    ∀ ids : List Nat,
      List.Sorted (· ≤ ·)
        (VueCore.runEventIds
          (VueCore.flushSchedulerQueue VueCore.noEff (VueCore.enqueueAll ids).queue.length
            (VueCore.enqueueAll ids)).1) := by
refine ⟨by decide, ?_⟩
intro ids
unfold VueCore.flushSchedulerQueue
have hnd : (VueCore.enqueueAll ids).has.Nodup := enqueueAll_has_nodup ids
have hloop := flushLoop_noEff (VueCore.enqueueAll ids).queue.length
  { VueCore.enqueueAll ids with
      flushing := true,
      index := 0,
      queue := List.insertionSort (· ≤ ·) (VueCore.enqueueAll ids).queue }
  hnd (by simp [List.length_insertionSort])
simp only [hloop, List.drop_zero]
rw [runEventIds_map_run]
exact List.sorted_insertionSort _ _

/-! ### Claim C7 -/

/-- C7: enqueuing the same Subscriber twice before a flush is fully
deduplicated: the second `queueWatcher` call leaves the scheduler state
untouched (for *any* starting state), and the following flush runs that
Subscriber exactly once. -/
theorem queueWatcher_dedup (s : VueCore.SchedState) (id : Nat) :
    VueCore.queueWatcher (VueCore.queueWatcher s id) id = VueCore.queueWatcher s id ∧
    (VueCore.flushSchedulerQueue VueCore.noEff 2
        (VueCore.queueWatcher (VueCore.queueWatcher VueCore.initSched id) id)).1 =
      [VueCore.SchedEvent.run id] := by
constructor
· exact queueWatcher_of_mem _ _ (mem_has_queueWatcher s id)
· have h1 : VueCore.queueWatcher VueCore.initSched id =
      { queue := [id], has := [id], circular := [], waiting := true,
        flushing := false, index := 0 } := by
    unfold VueCore.queueWatcher VueCore.initSched
    simp
  have h2 := queueWatcher_of_mem _ _ (mem_has_queueWatcher VueCore.initSched id)
  rw [h2, h1]
  unfold VueCore.flushSchedulerQueue
  simp [List.insertionSort, List.orderedInsert, VueCore.flushLoop, VueCore.runWatcher,
    VueCore.noEff]

/-! ### Claim C8 -/

/-- C8: every intercepted mutating operation first executes the native
operation, then makes exactly the newly inserted elements reactive (all
arguments for push and unshift, the arguments from position 2 onward
for splice, none otherwise), then notifies the list observer's Dep
exactly once, and returns the native operation's result on the natively
mutated contents. -/
theorem mutator_native_observe_notify (m : VueCore.ArrayMethod)
    (args arr : List VueCore.JSVal) :
    (VueCore.mutator m args arr).arr = (VueCore.nativeApply m args arr).1 ∧
    (VueCore.mutator m args arr).ret = (VueCore.nativeApply m args arr).2 ∧
    (VueCore.mutator m args arr).events =
      VueCore.ArrEvent.native ::
        ((VueCore.insertedElems m args).map VueCore.ArrEvent.observeElem ++
          [VueCore.ArrEvent.notify]) ∧
    (VueCore.mutator m args arr).events.count VueCore.ArrEvent.notify = 1 := by
have hcount : ∀ l : List VueCore.ArrEvent,
    VueCore.ArrEvent.notify ∉ l → l.count VueCore.ArrEvent.notify = 0 := by
  intro l hl
  exact List.count_eq_zero.mpr hl
have hmap : ∀ l : List VueCore.JSVal,
    (l.map VueCore.ArrEvent.observeElem).count VueCore.ArrEvent.notify = 0 := by
  intro l
  apply hcount
  intro hm
  simp at hm
have hdrop : ∀ (nn : Nat) (l : List VueCore.JSVal),
    (List.drop nn (l.map VueCore.ArrEvent.observeElem)).count VueCore.ArrEvent.notify = 0 := by
  intro nn l
  apply hcount
  intro hm
  have := List.mem_of_mem_drop hm
  simp at this
cases m <;>
  refine ⟨rfl, rfl, rfl, ?_⟩ <;>
    simp [VueCore.mutator, List.count_cons, List.count_append, hmap, hdrop]

/-! ### Claim C9 -/

/-- C9: `observe` is idempotent — a second call on the (possibly newly
wrapped) result returns the very same Observer and changes nothing; a
value that already carries an Observer gets that existing Observer back
unchanged (no double-wrapping); and when no Observer is attached yet, a
fresh one is created exactly for plain records or ordered lists that
are extensible, not component instances, with observation enabled and
not server-rendering. -/
theorem observe_idempotent_no_double_wrap (shouldObserve ssr : Bool) (n m k : Nat)
    (v : VueCore.JSObj) (hobj : v.isObjectLike = true) (hvn : v.isVNode = false) :
    (VueCore.observe shouldObserve ssr m (VueCore.observe shouldObserve ssr n v).2 =
      VueCore.observe shouldObserve ssr n v) ∧
    (v.ob = some k → VueCore.observe shouldObserve ssr n v = (some k, v)) ∧
    (v.ob = none →
      ((VueCore.observe shouldObserve ssr n v).1.isSome ↔
        (shouldObserve = true ∧ ssr = false ∧
          (v.isArray = true ∨ v.isPlainObject = true) ∧
          v.extensible = true ∧ v.isVue = false))) := by
by_cases hob : v.ob.isSome
· obtain ⟨k2, hk2⟩ := Option.isSome_iff_exists.mp hob
  have h1 : ∀ fresh : Nat, VueCore.observe shouldObserve ssr fresh v = (some k2, v) := by
    intro fresh
    unfold VueCore.observe
    simp [hobj, hvn, hk2]
  refine ⟨?_, ?_, ?_⟩
  · rw [h1 n]
    exact h1 m
  · intro hk
    rw [hk] at hk2
    rw [Option.some.injEq] at hk2
    rw [hk2]
    exact h1 n
  · intro hk
    rw [hk] at hk2
    simp at hk2
· have hobn : v.ob = none := Option.not_isSome_iff_eq_none.mp hob
  by_cases hcond :
      (shouldObserve && !ssr && (v.isArray || v.isPlainObject) && v.extensible && !v.isVue) = true
  · have h1 : VueCore.observe shouldObserve ssr n v = (some n, { v with ob := some n }) := by
      unfold VueCore.observe
      simp [hobj, hvn, hobn, hcond]
    have h2 : VueCore.observe shouldObserve ssr m { v with ob := some n } =
        (some n, { v with ob := some n }) := by
      unfold VueCore.observe
      simp [hobj, hvn]
    refine ⟨?_, ?_, ?_⟩
    · rw [h1]
      exact h2
    · intro hk
      rw [hobn] at hk
      simp at hk
    · intro _
      rw [h1]
      simp only [Bool.and_eq_true, Bool.not_eq_true', Bool.or_eq_true] at hcond
      obtain ⟨⟨⟨⟨ha, hb⟩, hc⟩, hd⟩, he⟩ := hcond
      simp [ha, hb, hc, hd, he]
  · have h1 : ∀ fresh : Nat, VueCore.observe shouldObserve ssr fresh v = (none, v) := by
      intro fresh
      unfold VueCore.observe
      simp [hobj, hvn, hobn, hcond]
    refine ⟨?_, ?_, ?_⟩
    · rw [h1 n]
      exact h1 m
    · intro hk
      rw [hobn] at hk
      simp at hk
    · intro _
      rw [h1 n]
      simp only [Option.isSome_none, Bool.false_eq_true, false_iff]
      rintro ⟨ha, hb, hc, hd, he⟩
      apply hcond
      simp [ha, hb, hd, he]
      rcases hc with hc | hc <;> simp [hc]

/-- Witness for C9: a plain extensible non-component record already
carrying Observer 5 is handed back with Observer 5 and left unchanged. -/
theorem observe_idempotent_no_double_wrap_witness :
    VueCore.observe true false 9
        { isObjectLike := true, isVNode := false, ob := some 5, isArray := false,
          isPlainObject := true, extensible := true, isVue := false } =
      (some 5,
        { isObjectLike := true, isVNode := false, ob := some 5, isArray := false,
          isPlainObject := true, extensible := true, isVue := false }) :=
(observe_idempotent_no_double_wrap true false 9 9 5
  { isObjectLike := true, isVNode := false, ob := some 5, isArray := false,
    isPlainObject := true, extensible := true, isVue := false } rfl rfl).2.1 rfl


/-! ### Claim C2 -/

/-- C2: diffing old children [A(1) elm 10, B(2) elm 11, C(3) elm 12]
against new children [C(3), A(1), B(2)] (each pair matching under the
same-node rule) leaves the backing nodes in order 12, 10, 11 under the
parent, reuses all three original backing nodes (the new vnodes carry
exactly the old `elm`s), and performs exactly one move and three
in-place patches — zero create and zero remove operations. -/
theorem updateChildren_keyed_reorder :
    (VueCore.sameVnode (VueCore.mkLeaf 1 (some 10) 1) (VueCore.mkLeaf 1 none 5) = true ∧
     VueCore.sameVnode (VueCore.mkLeaf 2 (some 11) 2) (VueCore.mkLeaf 2 none 6) = true ∧
     VueCore.sameVnode (VueCore.mkLeaf 3 (some 12) 3) (VueCore.mkLeaf 3 none 4) = true) ∧
    (VueCore.updateChildren VueCore.effNoop 10 1 (VueCore.reorderOld.map some)
        VueCore.reorderNew false VueCore.reorderSt).2.dom = [(1, [12, 10, 11])] ∧
    (VueCore.updateChildren VueCore.effNoop 10 1 (VueCore.reorderOld.map some)
        VueCore.reorderNew false VueCore.reorderSt).1.map VueCore.PVnode.elm =
      [some 12, some 10, some 11] ∧
    (VueCore.updateChildren VueCore.effNoop 10 1 (VueCore.reorderOld.map some)
        VueCore.reorderNew false VueCore.reorderSt).2.log =
      [VueCore.PatchOp.patched 12, VueCore.PatchOp.moved 12,
        VueCore.PatchOp.patched 10, VueCore.PatchOp.patched 11] ∧
    (VueCore.updateChildren VueCore.effNoop 10 1 (VueCore.reorderOld.map some)
        VueCore.reorderNew false VueCore.reorderSt).2.log.filter
      (fun op =>
        match op with
        | VueCore.PatchOp.created _ => true
        | VueCore.PatchOp.removed _ => true
        | _ => false) = [] := by
refine ⟨⟨?_, ?_, ?_⟩, ?_, ?_, ?_, ?_⟩ <;> decide

/-! ### Claim C3 -/

/-- C3 (code bug): the patch engine's `createComponent` reads
`vnode.dat` — a property nothing ever writes — instead of `vnode.data`,
so for a vnode whose data carries `hook.init` it finds `undefined`,
never invokes the init hook, and returns `undefined`; `createElm` then
falls through and creates a plain backing element for the placeholder.
The spec-modelled intended version (reading `data`) invokes the init
hook, installs the component instance's element, and returns
successfully. -/
theorem createComponent_dat_slip :
    ((VueCore.createComponent VueCore.initEffSample VueCore.componentVnode (some 1) none
        VueCore.componentSt).isSome = false) ∧
    ((VueCore.createElm VueCore.initEffSample 10 VueCore.componentVnode (some 1) none false
        VueCore.componentSt).2.log = [VueCore.PatchOp.created 100]) ∧
    ((VueCore.createElm VueCore.initEffSample 10 VueCore.componentVnode (some 1) none false
        VueCore.componentSt).2.dom = [(1, [100])]) ∧
    ((VueCore.createComponentAsSpecified VueCore.initEffSample VueCore.componentVnode (some 1)
        none VueCore.componentSt).map (fun p => p.2.log) =
      some [VueCore.PatchOp.initHook 50]) ∧
    ((VueCore.createComponentAsSpecified VueCore.initEffSample VueCore.componentVnode (some 1)
        none VueCore.componentSt).map (fun p => p.1.elm) = some (some 77)) ∧
    ((VueCore.createComponentAsSpecified VueCore.initEffSample VueCore.componentVnode (some 1)
        none VueCore.componentSt).map (fun p => p.2.dom) = some [(1, [77])]) := by
refine ⟨?_, ?_, ?_, ?_, ?_, ?_⟩ <;> decide

/-! ### Claim C10 -/

/-- C10 counterexample: with `tag` absent but `data.is = "div"` (and the
data not observed), `_createElement` does *not* return an empty comment
vnode — the `data.is` substitution runs before the `!tag` check, so a
"div" element vnode is built.  This refutes "the same empty comment
node is returned when tag is absent or falsy" as stated. -/
theorem _createElement_absent_tag_counterexample :
    (VueCore._createElement (fun t => t == "div") (fun _ => false) (fun _ _ _ _ => none)
        none (some { isAttr := some "div" }) none 7).isComment = false ∧
    (VueCore._createElement (fun t => t == "div") (fun _ => false) (fun _ _ _ _ => none)
        none (some { isAttr := some "div" }) none 7).tag = some "div" := by
exact ⟨by decide, by decide⟩

/-- C10 (amended): when the data argument is defined and observed
(`data.__ob__` defined), `_createElement` returns an empty comment
vnode regardless of tag and children; and the same empty comment vnode
is returned when the *effective* tag — after substituting a defined
`data.is` — is absent or falsy. -/
theorem _createElement_early_empty (isReservedTag isComponent : String → Bool)
    (mkComponent : String → Option VueCore.PVNodeData → Option (List VueCore.PVnode) → Nat →
      Option VueCore.PVnode)
    (tag : Option String) (data : Option VueCore.PVNodeData)
    (children : Option (List VueCore.PVnode)) (oid : Nat) :
    ((data.map VueCore.PVNodeData.ob).getD false = true →
      VueCore._createElement isReservedTag isComponent mkComponent tag data children oid =
        VueCore.createEmptyVNode oid) ∧
    ((data.map VueCore.PVNodeData.ob).getD false = false →
      VueCore.truthyTag (VueCore.effectiveTag tag data) = false →
      VueCore._createElement isReservedTag isComponent mkComponent tag data children oid =
        VueCore.createEmptyVNode oid) := by
constructor
· intro h
  unfold VueCore._createElement
  simp [h]
· intro h1 h2
  unfold VueCore._createElement
  simp [h1, h2]

/-- Witness for C10 (amended): an observed data bag with a perfectly
good "div" tag still yields the empty comment vnode, and an absent tag
with no `data.is` yields it as well. -/
theorem _createElement_early_empty_witness :
    VueCore._createElement (fun t => t == "div") (fun _ => false) (fun _ _ _ _ => none)
        (some "div") (some { ob := true }) none 8 =
      VueCore.createEmptyVNode 8 ∧
    VueCore._createElement (fun t => t == "div") (fun _ => false) (fun _ _ _ _ => none)
        none none none 9 =
      VueCore.createEmptyVNode 9 :=
⟨(_createElement_early_empty (fun t => t == "div") (fun _ => false) (fun _ _ _ _ => none)
    (some "div") (some { ob := true }) none 8).1 rfl,
  (_createElement_early_empty (fun t => t == "div") (fun _ => false) (fun _ _ _ _ => none)
    none none none 9).2 rfl rfl⟩
